import Mathlib

/-!
Shallow embedding of the terraform-provider-cassandra resource handlers.

The Go source is embedded as pure Lean functions. Driver interactions
(session creation, statement execution, row lookups) are passed in as
explicit outcome parameters, and every handler additionally returns the
list of driver effects it performed, in order. Terraform resource data
is embedded as per-resource records; an empty string in an optional
field models an unset field (GetOk returns false exactly for zero
values). Go errors are modelled as their message strings.
-/

namespace Cassandra

/-- Driver effects a lifecycle handler can perform, in order. -/
inductive Effect where
  | createSession
  | execStatement (cql : String)
  deriving DecidableEq, Repr

/-- Byte-wise lexicographic comparison of char lists, as Go compares strings. -/
def charListLe : List Char → List Char → Bool
  | [], _ => true
  | _ :: _, [] => false
  | a :: as, b :: bs => if a < b then true else if b < a then false else charListLe as bs

/-- Go string comparison used by sort.Strings. -/
def strLeB (a b : String) : Bool :=
  charListLe a.data b.data

/-- Embedding of sort.Strings: sort a list of strings ascending. -/
def goSortStrings (l : List String) : List String :=
  List.insertionSort (fun a b => strLeB a b = true) l

/-- Embedding of fmt %q for the printable strings the provider handles:
wrap in double quotes, escaping backslash and double quote. -/
def goQuote (s : String) : String :=
  "\"" ++ String.join (s.data.map fun c =>
    if c = '\\' then "\\\\" else if c = '"' then "\\\"" else String.singleton c) ++ "\""

/-- Embedding of strings.ToUpper over the ASCII names the provider handles. -/
def goToUpper (s : String) : String :=
  String.mk (s.data.map Char.toUpper)

/-- Embedding of strings.TrimPrefix. -/
def goTrimPfx (s pre : String) : String :=
  if pre.isPrefixOf s then s.drop pre.length else s

/-- Embedding of fmt %t on a Go bool. -/
def goBool (b : Bool) : String :=
  if b then "true" else "false"

/-- Grant holds parsed grant information (struct Grant). -/
structure Grant where
  Privilege : String
  ResourceType : String
  Grantee : String
  KeyspaceName : String
  TableName : String
  deriving DecidableEq, Repr

/-- Resource locator fragment shared by the three grant templates:
the branch on KeyspaceName and TableName truthiness, rendered exactly as
the template text writes it (note the third double quote of the
keyspace branch). -/
def grantResourceLocator (g : Grant) : String :=
  if g.KeyspaceName ≠ "" then
    "\"" ++ g.KeyspaceName ++ "\"" ++
      (if g.TableName ≠ "" then "." ++ g.TableName else "") ++ "\""
  else
    goToUpper g.ResourceType

/-- Rendering of createGrantTpl (upper is modelled as strings.ToUpper). -/
def renderCreateGrant (g : Grant) : String :=
  "GRANT " ++ goToUpper g.Privilege ++ " ON " ++ goToUpper g.ResourceType ++ " " ++
    grantResourceLocator g ++ " TO \"" ++ g.Grantee ++ "\""

/-- Rendering of deleteGrantTpl. -/
def renderDeleteGrant (g : Grant) : String :=
  "REVOKE " ++ goToUpper g.Privilege ++ " ON " ++ goToUpper g.ResourceType ++ " " ++
    grantResourceLocator g ++ " FROM \"" ++ g.Grantee ++ "\""

/-- Rendering of readGrantTpl. -/
def renderReadGrant (g : Grant) : String :=
  "LIST " ++ goToUpper g.Privilege ++ " ON " ++ goToUpper g.ResourceType ++ " " ++
    grantResourceLocator g ++ " OF \"" ++ g.Grantee ++ "\""

/-- Embedding of parseGrantData: field extraction plus the TABLE validation. -/
def parseGrantData (priv grantee resType ks tbl : String) : Except String Grant :=
  if resType ≠ "" ∧ goToUpper resType = "TABLE" then
    if ks = "" ∨ tbl = "" then
      Except.error "resource_type TABLE requires keyspace_name and table_name to be set"
    else
      Except.ok ⟨priv, resType, grantee, ks, tbl⟩
  else
    Except.ok ⟨priv, resType, grantee, ks, tbl⟩

/-- Composite grant id set by resourceGrantCreate. -/
def grantCompositeId (g : Grant) : String :=
  g.Grantee ++ "|" ++ goToUpper g.ResourceType ++ "|" ++ g.KeyspaceName ++ "|" ++
    g.TableName ++ "|" ++ goToUpper g.Privilege

/-- Terraform resource data for a cassandra_grant. -/
structure GrantState where
  privilege : String
  grantee : String
  resource_type : String
  keyspace_name : String
  table_name : String
  id : String
  deriving DecidableEq, Repr

/-- Embedding of resourceGrantExists. Driver outcomes: sessionResult is
cluster.CreateSession, numRows the iterator row count, closeErr the
iterator close error. Returns (effects, exists flag, returned error). -/
def resourceGrantExists (st : GrantState) (sessionResult : Except String Unit)
    (numRows : Nat) (closeErr : Option String) :
    List Effect × Bool × Option String :=
  match parseGrantData st.privilege st.grantee st.resource_type st.keyspace_name st.table_name with
  | Except.error e => ([], false, some e)
  | Except.ok g =>
    match sessionResult with
    | Except.error e => ([Effect.createSession], false, some e)
    | Except.ok _ =>
      ([Effect.createSession, Effect.execStatement (renderReadGrant g)],
        decide (0 < numRows), closeErr)

/-- Embedding of resourceGrantRead: delegates to resourceGrantExists, turns
absence into the fixed error, and otherwise re-sets the parsed fields. -/
def resourceGrantRead (st : GrantState) (sessionResult : Except String Unit)
    (numRows : Nat) (closeErr : Option String) :
    GrantState × List Effect × Option String :=
  match resourceGrantExists st sessionResult numRows closeErr with
  | (effs, _, some e) => (st, effs, some e)
  | (effs, false, none) => (st, effs, some "grant not found (it may have been revoked)")
  | (effs, true, none) =>
    match parseGrantData st.privilege st.grantee st.resource_type st.keyspace_name st.table_name with
    | Except.error e => (st, effs, some e)
    | Except.ok g =>
      ({ st with privilege := g.Privilege, grantee := g.Grantee, resource_type := g.ResourceType, keyspace_name := g.KeyspaceName, table_name := g.TableName }, effs, none)

/-- Embedding of resourceGrantCreate: parse, render, session, exec, set the
composite id, then chain into resourceGrantRead with its own driver outcomes. -/
def resourceGrantCreate (st : GrantState) (sessionResult execResult : Except String Unit)
    (readSession : Except String Unit) (readNumRows : Nat) (readCloseErr : Option String) :
    GrantState × List Effect × Option String :=
  match parseGrantData st.privilege st.grantee st.resource_type st.keyspace_name st.table_name with
  | Except.error e => (st, [], some e)
  | Except.ok g =>
    match sessionResult with
    | Except.error e => (st, [Effect.createSession], some e)
    | Except.ok _ =>
      match execResult with
      | Except.error e =>
        (st, [Effect.createSession, Effect.execStatement (renderCreateGrant g)], some e)
      | Except.ok _ =>
        let st1 := { st with id := grantCompositeId g }
        let r := resourceGrantRead st1 readSession readNumRows readCloseErr
        (r.1, [Effect.createSession, Effect.execStatement (renderCreateGrant g)] ++ r.2.1, r.2.2)

/-- Embedding of resourceGrantDelete. -/
def resourceGrantDelete (st : GrantState) (sessionResult execResult : Except String Unit) :
    GrantState × List Effect × Option String :=
  match parseGrantData st.privilege st.grantee st.resource_type st.keyspace_name st.table_name with
  | Except.error e => (st, [], some e)
  | Except.ok g =>
    match sessionResult with
    | Except.error e => (st, [Effect.createSession], some e)
    | Except.ok _ =>
      match execResult with
      | Except.error e =>
        (st, [Effect.createSession, Effect.execStatement (renderDeleteGrant g)], some e)
      | Except.ok _ =>
        (st, [Effect.createSession, Effect.execStatement (renderDeleteGrant g)], none)

/-- Embedding of boolToAction: maps the creation flag to the CQL action. -/
def boolToAction (create : Bool) : String :=
  if create then "CREATE" else "ALTER"

/-- Terraform resource data for a cassandra_keyspace. The strategy options
map is carried as an association list in iteration order. -/
structure KeyspaceState where
  id : String
  name : String
  replication_strategy : String
  strategy_options : List (String × String)
  durable_writes : Bool
  deriving DecidableEq, Repr

/-- Embedding of generateCreateOrUpdateKeyspaceQueryString: empty strategy
options fail before the query string is built. -/
def generateCreateOrUpdateKeyspaceQueryString (name : String) (create : Bool)
    (replicationStrategy : String) (strategyOptions : List (String × String))
    (durableWrites : Bool) : Except String String :=
  if strategyOptions.length = 0 then
    Except.error "must specify strategy options - see https://docs.datastax.com/en/cql/3.3/cql/cql_reference/cqlCreateKeyspace.html"
  else
    Except.ok (boolToAction create ++ " KEYSPACE " ++ name ++
      " WITH REPLICATION = \x7b \x27class\x27 : \x27" ++ replicationStrategy ++ "\x27" ++
      String.join (strategyOptions.map fun kv =>
        ", \x27" ++ kv.1 ++ "\x27 : \x27" ++ kv.2 ++ "\x27") ++
      " \x7d AND DURABLE_WRITES = " ++ goBool durableWrites)

/-- Outcome of session.KeyspaceMetadata for the recorded keyspace name. -/
inductive KeyspaceLookup where
  | notExist
  | failure (e : String)
  | found (strategyClass : String) (strategyOptions : List (String × String)) (durableWrites : Bool)
  deriving DecidableEq, Repr

/-- Embedding of resourceKeyspaceRead: absence of the keyspace clears the id
and reports no diagnostics; metadata is mapped back into the attributes. -/
def resourceKeyspaceRead (st : KeyspaceState) (sessionResult : Except String Unit)
    (lookup : KeyspaceLookup) : KeyspaceState × List Effect × Option String :=
  match sessionResult with
  | Except.error e => (st, [Effect.createSession], some e)
  | Except.ok _ =>
    match lookup with
    | KeyspaceLookup.notExist => ({ st with id := "" }, [Effect.createSession], none)
    | KeyspaceLookup.failure e => (st, [Effect.createSession], some e)
    | KeyspaceLookup.found cls opts dw =>
      ({ st with name := st.id, replication_strategy := goTrimPfx cls "org.apache.cassandra.locator.", durable_writes := dw, strategy_options := opts }, [Effect.createSession], none)

/-- Embedding of resourceKeyspaceCreate: build the query (validation first),
open a session, execute, set the id to the name, then chain into read. -/
def resourceKeyspaceCreate (st : KeyspaceState) (sessionResult execResult : Except String Unit)
    (readSession : Except String Unit) (lookup : KeyspaceLookup) :
    KeyspaceState × List Effect × Option String :=
  match generateCreateOrUpdateKeyspaceQueryString st.name true st.replication_strategy st.strategy_options st.durable_writes with
  | Except.error e => (st, [], some e)
  | Except.ok query =>
    match sessionResult with
    | Except.error e => (st, [Effect.createSession], some e)
    | Except.ok _ =>
      match execResult with
      | Except.error e => (st, [Effect.createSession, Effect.execStatement query], some e)
      | Except.ok _ =>
        let st1 := { st with id := st.name }
        let r := resourceKeyspaceRead st1 readSession lookup
        (r.1, [Effect.createSession, Effect.execStatement query] ++ r.2.1, r.2.2)

/-- Embedding of resourceKeyspaceUpdate: identical to create with the ALTER
action and without setting the id. -/
def resourceKeyspaceUpdate (st : KeyspaceState) (sessionResult execResult : Except String Unit)
    (readSession : Except String Unit) (lookup : KeyspaceLookup) :
    KeyspaceState × List Effect × Option String :=
  match generateCreateOrUpdateKeyspaceQueryString st.name false st.replication_strategy st.strategy_options st.durable_writes with
  | Except.error e => (st, [], some e)
  | Except.ok query =>
    match sessionResult with
    | Except.error e => (st, [Effect.createSession], some e)
    | Except.ok _ =>
      match execResult with
      | Except.error e => (st, [Effect.createSession, Effect.execStatement query], some e)
      | Except.ok _ =>
        let r := resourceKeyspaceRead st readSession lookup
        (r.1, [Effect.createSession, Effect.execStatement query] ++ r.2.1, r.2.2)

/-- Embedding of resourceKeyspaceDelete. -/
def resourceKeyspaceDelete (st : KeyspaceState) (sessionResult execResult : Except String Unit) :
    KeyspaceState × List Effect × Option String :=
  match sessionResult with
  | Except.error e => (st, [Effect.createSession], some e)
  | Except.ok _ =>
    match execResult with
    | Except.error e =>
      (st, [Effect.createSession, Effect.execStatement ("DROP KEYSPACE " ++ st.name)], some e)
    | Except.ok _ =>
      (st, [Effect.createSession, Effect.execStatement ("DROP KEYSPACE " ++ st.name)], none)

/-- Embedding of the strategy_options StateFunc from resourceCassandraKeyspace:
serialize each entry with fmt %q as key=value, sort, join with comma-space and
digest. The sha256 hex digest from the hash helper in shared.go is an external
crypto primitive, passed here as an explicit function argument. -/
def strategyOptionsStateFunc (digest : String → String)
    (strategyOptions : List (String × String)) : String :=
  let keys := strategyOptions.map fun kv => goQuote kv.1 ++ "=" ++ goQuote kv.2
  digest (String.intercalate ", " (goSortStrings keys))

/-- Row of the system roles table consumed by readRole. -/
structure RoleRow where
  role : String
  can_login : Bool
  is_superuser : Bool
  salted_hash : String
  deriving DecidableEq, Repr

/-- Outcome of the readRole query: an error on iterator close, no row, or the
first row scanned. -/
inductive RoleLookup where
  | failure (e : String)
  | notFound
  | found (row : RoleRow)
  deriving DecidableEq, Repr

/-- Query text built by readRole against the configured system keyspace. -/
def readRoleQuery (systemKeyspace : String) : String :=
  "SELECT role, can_login, is_superuser, salted_hash FROM " ++ systemKeyspace ++
    ".roles WHERE role = ?"

/-- Terraform resource data for a cassandra_role. -/
structure RoleState where
  id : String
  name : String
  super_user : Bool
  login : Bool
  password : String
  deriving DecidableEq, Repr

/-- Embedding of resourceRoleRead. The provider-level password hash algorithm
and the bcrypt comparison (golang.org/x/crypto/bcrypt, an external primitive)
are passed as explicit arguments; bcryptMatch hash pwd is true when
bcrypt.CompareHashAndPassword(hash, pwd) returns nil. -/
def resourceRoleRead (st : RoleState) (systemKeyspace algo : String)
    (bcryptMatch : String → String → Bool) (sessionResult : Except String Unit)
    (lookup : RoleLookup) : RoleState × List Effect × Option String :=
  match sessionResult with
  | Except.error e => (st, [Effect.createSession], some e)
  | Except.ok _ =>
    let effs := [Effect.createSession, Effect.execStatement (readRoleQuery systemKeyspace)]
    match lookup with
    | RoleLookup.failure e => (st, effs, some e)
    | RoleLookup.notFound => ({ st with id := "" }, effs, none)
    | RoleLookup.found row =>
      let st1 := { st with id := row.role, name := row.role, super_user := row.is_superuser, login := row.can_login }
      if row.salted_hash = "" then
        ({ st1 with password := "" }, effs, none)
      else if algo = "bcrypt" then
        if bcryptMatch row.salted_hash st.password then
          ({ st1 with password := st.password }, effs, none)
        else
          ({ st1 with password := row.salted_hash }, effs, none)
      else if algo = "sha-512" then
        if row.salted_hash = st.password then
          ({ st1 with password := st.password }, effs, none)
        else
          ({ st1 with password := row.salted_hash }, effs, none)
      else
        if row.salted_hash = st.password then
          ({ st1 with password := st.password }, effs, none)
        else
          ({ st1 with password := row.salted_hash }, effs, none)

/-- Embedding of resourceRoleCreateOrUpdate (resourceRoleCreate passes true,
resourceRoleUpdate passes false). -/
def resourceRoleCreateOrUpdate (st : RoleState) (createRole : Bool)
    (sessionResult execResult : Except String Unit) :
    RoleState × List Effect × Option String :=
  match sessionResult with
  | Except.error e => (st, [Effect.createSession], some e)
  | Except.ok _ =>
    let query := boolToAction createRole ++ " ROLE \"" ++ st.name ++
      "\" WITH PASSWORD = \x27" ++ st.password ++ "\x27 AND LOGIN = " ++ goBool st.login ++
      " AND SUPERUSER = " ++ goBool st.super_user
    match execResult with
    | Except.error e => (st, [Effect.createSession, Effect.execStatement query], some e)
    | Except.ok _ =>
      ({ st with id := st.name, name := st.name, super_user := st.super_user, login := st.login, password := st.password }, [Effect.createSession, Effect.execStatement query], none)

/-- Embedding of resourceRoleDelete: drops the role named by the recorded id. -/
def resourceRoleDelete (st : RoleState) (sessionResult execResult : Except String Unit) :
    RoleState × List Effect × Option String :=
  match sessionResult with
  | Except.error e => (st, [Effect.createSession], some e)
  | Except.ok _ =>
    let query := "DROP ROLE \"" ++ st.id ++ "\""
    match execResult with
    | Except.error e => (st, [Effect.createSession, Effect.execStatement query], some e)
    | Except.ok _ => (st, [Effect.createSession, Effect.execStatement query], none)

/-- Hash match relation as the spec words it, for comparison against the read
handler: bcrypt comparison when the configured algorithm is bcrypt, plain
string equality (standing in for SHA-512 crypt) otherwise. The bcrypt
primitive is external library code and is passed as a function argument. -/
def claimedHashMatch (algo : String) (bcryptMatch : String → String → Bool)
    (storedHash plaintext : String) : Bool :=
  if algo = "bcrypt" then bcryptMatch storedHash plaintext else storedHash = plaintext

/-- Terraform resource data for a cassandra_table. Columns are carried as an
association list in map iteration order; primary_key keeps list order. -/
structure TableState where
  id : String
  keyspace_name : String
  name : String
  columns : List (String × String)
  primary_key : List String
  comment : String
  deriving DecidableEq, Repr

/-- Column definition fragments built from the columns map. -/
def tableColumnDefs (columns : List (String × String)) : String :=
  String.intercalate ", " (columns.map fun kv => "\"" ++ kv.1 ++ "\" " ++ kv.2)

/-- Quoted primary key parts (pkParts). -/
def tablePkParts (primaryKey : List String) : List String :=
  primaryKey.map fun pk => "\"" ++ pk ++ "\""

/-- Primary key clause of resourceTableCreate. The Go code slices pkParts with
pkParts[:1], which panics with a slice bounds error when pkParts is empty; the
panic is modelled as none. -/
def tablePrimaryKeyClause : List String → Option String
  | [] => none
  | p :: rest =>
    if rest.isEmpty then
      some ("PRIMARY KEY ((" ++ p ++ "))")
    else
      some ("PRIMARY KEY ((" ++ p ++ "), " ++ String.intercalate ", " rest ++ ")")

/-- CREATE TABLE statement built by resourceTableCreate; none models the panic
on an empty primary key. -/
def buildCreateTableQuery (keyspace name : String) (columns : List (String × String))
    (primaryKey : List String) (comment : String) : Option String :=
  match tablePrimaryKeyClause (tablePkParts primaryKey) with
  | none => none
  | some pkClause =>
    let base := "CREATE TABLE \"" ++ keyspace ++ "\".\"" ++ name ++ "\" (" ++
      tableColumnDefs columns ++ ", " ++ pkClause
    some (if comment ≠ "" then base ++ ") WITH comment = \x27" ++ comment ++ "\x27" else base ++ ")")

/-- Splitting of a char list at the first dot. -/
def splitFirstDot : List Char → Option (List Char × List Char)
  | [] => none
  | c :: cs =>
    if c = '.' then some ([], cs)
    else
      match splitFirstDot cs with
      | none => none
      | some (a, b) => some (c :: a, b)

/-- Embedding of strings.SplitN(id, ".", 2) followed by the length-2 check:
some (before, after) exactly when the id contains a dot. -/
def splitIdOnDot (id : String) : Option (String × String) :=
  match splitFirstDot id.data with
  | none => none
  | some (a, b) => some (String.mk a, String.mk b)

/-- Existence query of resourceTableRead and resourceTableExists. -/
def tableExistsQuery (keyspace table : String) : String :=
  "SELECT table_name FROM system_schema.tables WHERE keyspace_name=\x27" ++ keyspace ++
    "\x27 AND table_name=\x27" ++ table ++ "\x27"

/-- Embedding of resourceTableRead: a malformed id clears the id without a
session; a missing row clears the id without error; a found row maps the id
parts back into the attributes. -/
def resourceTableRead (st : TableState) (sessionResult : Except String Unit)
    (found : Bool) (closeErr : Option String) :
    TableState × List Effect × Option String :=
  match splitIdOnDot st.id with
  | none => ({ st with id := "" }, [], none)
  | some (ks, tbl) =>
    match sessionResult with
    | Except.error e => (st, [Effect.createSession], some e)
    | Except.ok _ =>
      let effs := [Effect.createSession, Effect.execStatement (tableExistsQuery ks tbl)]
      match closeErr with
      | some e => (st, effs, some e)
      | none =>
        if found then
          ({ st with keyspace_name := ks, name := tbl }, effs, none)
        else
          ({ st with id := "" }, effs, none)

/-- Embedding of resourceTableCreate. The whole handler is none when the query
construction panics (empty primary key); otherwise it opens a session,
executes, wraps an execution failure in the creating-table message, sets the
composite id and chains into read. -/
def resourceTableCreate (st : TableState) (sessionResult execResult : Except String Unit)
    (readSession : Except String Unit) (readFound : Bool) (readCloseErr : Option String) :
    Option (TableState × List Effect × Option String) :=
  match buildCreateTableQuery st.keyspace_name st.name st.columns st.primary_key st.comment with
  | none => none
  | some query =>
    match sessionResult with
    | Except.error e => some (st, [Effect.createSession], some e)
    | Except.ok _ =>
      match execResult with
      | Except.error e =>
        some (st, [Effect.createSession, Effect.execStatement query],
          some ("error creating table " ++ st.name ++ ": " ++ e))
      | Except.ok _ =>
        let st1 := { st with id := st.keyspace_name ++ "." ++ st.name }
        let r := resourceTableRead st1 readSession readFound readCloseErr
        some (r.1, [Effect.createSession, Effect.execStatement query] ++ r.2.1, r.2.2)

/-- Embedding of resourceTableUpdate: the fixed unsupported error, no session,
no statement, state untouched. -/
def resourceTableUpdate (st : TableState) : TableState × List Effect × Option String :=
  (st, [], some "updating table schema is not supported; use taint or recreate the resource")

/-- Embedding of resourceTableDelete: a malformed id returns nil without a
session; otherwise drop the table, passing the execution error through. -/
def resourceTableDelete (st : TableState) (sessionResult execResult : Except String Unit) :
    TableState × List Effect × Option String :=
  match splitIdOnDot st.id with
  | none => (st, [], none)
  | some (ks, tbl) =>
    match sessionResult with
    | Except.error e => (st, [Effect.createSession], some e)
    | Except.ok _ =>
      let query := "DROP TABLE \"" ++ ks ++ "\".\"" ++ tbl ++ "\""
      match execResult with
      | Except.error e => (st, [Effect.createSession, Effect.execStatement query], some e)
      | Except.ok _ => (st, [Effect.createSession, Effect.execStatement query], none)

/-- Embedding of the port ValidateFunc from the provider schema: the rejection
condition port <= 0 || port >= 65535 with its error message. -/
def portValidateFunc (port : Int) : Option String :=
  if port ≤ 0 ∨ port ≥ 65535 then
    some (toString port ++ ": invalid port - must be between 1 and 65535")
  else
    none

example : renderCreateGrant ⟨"select", "keyspace", "migration", "test", ""⟩ =
    "GRANT SELECT ON KEYSPACE \"test\"\" TO \"migration\"" := rfl

example : renderCreateGrant ⟨"select", "table", "migration", "ks", "tbl"⟩ =
    "GRANT SELECT ON TABLE \"ks\".tbl\" TO \"migration\"" := by decide

example : renderCreateGrant ⟨"all", "all keyspaces", "migration", "", ""⟩ =
    "GRANT ALL ON ALL KEYSPACES ALL KEYSPACES TO \"migration\"" := by decide

example : parseGrantData "select" "migration" "keyspace" "" "" =
    Except.ok ⟨"select", "keyspace", "migration", "", ""⟩ := rfl

example : parseGrantData "select" "migration" "TABLE" "ks" "" =
    Except.error "resource_type TABLE requires keyspace_name and table_name to be set" := rfl

theorem charListLe_cons (a b : Char) (as bs : List Char) :
    charListLe (a :: as) (b :: bs) = true ↔ (a < b ∨ (a = b ∧ charListLe as bs = true)) := by
  rcases lt_trichotomy a b with h | h | h
  · simp [charListLe, h]
  · subst h
    simp [charListLe, lt_irrefl]
  · simp [charListLe, lt_asymm h, h, h.ne']

theorem charListLe_trans : ∀ {a b c : List Char},
    charListLe a b = true → charListLe b c = true → charListLe a c = true
  | [], _, _, _, _ => rfl
  | _ :: _, [], _, h1, _ => by simp [charListLe] at h1
  | _ :: _, _ :: _, [], _, h2 => by simp [charListLe] at h2
  | a :: as, b :: bs, c :: cs, h1, h2 => by
    rw [charListLe_cons] at h1 h2 ⊢
    rcases h1 with h1 | ⟨rfl, h1⟩
    · rcases h2 with h2 | ⟨rfl, h2⟩
      · exact Or.inl (h1.trans h2)
      · exact Or.inl h1
    · rcases h2 with h2 | ⟨rfl, h2⟩
      · exact Or.inl h2
      · exact Or.inr ⟨rfl, charListLe_trans h1 h2⟩

theorem charListLe_antisymm : ∀ {a b : List Char},
    charListLe a b = true → charListLe b a = true → a = b
  | [], [], _, _ => rfl
  | [], _ :: _, _, h2 => by simp [charListLe] at h2
  | _ :: _, [], h1, _ => by simp [charListLe] at h1
  | a :: as, b :: bs, h1, h2 => by
    rw [charListLe_cons] at h1 h2
    rcases h1 with h1 | ⟨rfl, h1⟩
    · rcases h2 with h2 | ⟨rfl, h2⟩
      · exact absurd h2 (lt_asymm h1)
      · exact absurd h1 (lt_irrefl _)
    · rcases h2 with h2 | ⟨_, h2⟩
      · exact absurd h2 (lt_irrefl _)
      · rw [charListLe_antisymm h1 h2]

theorem charListLe_total : ∀ (a b : List Char), charListLe a b = true ∨ charListLe b a = true
  | [], _ => Or.inl rfl
  | _ :: _, [] => Or.inr rfl
  | a :: as, b :: bs => by
    rw [charListLe_cons, charListLe_cons]
    rcases lt_trichotomy a b with h | rfl | h
    · exact Or.inl (Or.inl h)
    · rcases charListLe_total as bs with h | h
      · exact Or.inl (Or.inr ⟨rfl, h⟩)
      · exact Or.inr (Or.inr ⟨rfl, h⟩)
    · exact Or.inr (Or.inl h)

theorem strLeB_antisymm {a b : String} (h1 : strLeB a b = true) (h2 : strLeB b a = true) :
    a = b :=
  String.ext (charListLe_antisymm h1 h2)

instance : IsTotal String (fun a b => strLeB a b = true) :=
  ⟨fun a b => charListLe_total a.data b.data⟩

instance : IsTrans String (fun a b => strLeB a b = true) :=
  ⟨fun _ _ _ => charListLe_trans⟩

instance : IsAntisymm String (fun a b => strLeB a b = true) :=
  ⟨fun _ _ => strLeB_antisymm⟩

theorem goSortStrings_perm {l1 l2 : List String} (h : l1.Perm l2) :
    goSortStrings l1 = goSortStrings l2 :=
  List.eq_of_perm_of_sorted
    (((List.perm_insertionSort _ l1).trans h).trans (List.perm_insertionSort _ l2).symm)
    (List.sorted_insertionSort _ l1) (List.sorted_insertionSort _ l2)

/-- C8: for every pair of strategy-option maps that are equal as unordered
mappings, the state fingerprint (serialize each entry with fmt %q as a
key=value pair, sort, join, digest) is identical regardless of entry order,
for any digest function (in the source, the sha256 hex digest of shared.go). -/
theorem strategyOptionsStateFunc_order_independent (digest : String → String)
    (l1 l2 : List (String × String)) (h : l1.Perm l2) :
    strategyOptionsStateFunc digest l1 = strategyOptionsStateFunc digest l2 := by
  show digest (", ".intercalate (goSortStrings _)) = digest (", ".intercalate (goSortStrings _))
  rw [goSortStrings_perm (h.map fun kv => goQuote kv.1 ++ "=" ++ goQuote kv.2)]

theorem strategyOptionsStateFunc_order_independent_witness :
    ([("a", "1"), ("b", "2")] : List (String × String)).Perm [("b", "2"), ("a", "1")] ∧
    strategyOptionsStateFunc (fun s => s) [("a", "1"), ("b", "2")] =
      strategyOptionsStateFunc (fun s => s) [("b", "2"), ("a", "1")] :=
  ⟨by decide,
    strategyOptionsStateFunc_order_independent (fun s => s) _ _ (by decide)⟩

example : strategyOptionsStateFunc (fun s => s) [("b", "2"), ("a", "1")] =
    "\"a\"=\"1\", \"b\"=\"2\"" := by decide

/-- C3: for every table resource state, the table Update operation returns the
fixed unsupported-update error, performs no driver effect (no session, no
statement) and leaves the recorded state unchanged. -/
theorem resourceTableUpdate_always_fails (st : TableState) :
    resourceTableUpdate st =
      (st, [], some "updating table schema is not supported; use taint or recreate the resource") :=
  rfl

/-- C9 evidence: the port validator rejects 65535 even though its own error
message names 1 to 65535 as the valid range; 1 and 65534 are accepted, 0 and
negative values rejected. -/
theorem portValidateFunc_eval :
    portValidateFunc 65535 = some "65535: invalid port - must be between 1 and 65535" ∧
    portValidateFunc 65534 = none ∧
    portValidateFunc 1 = none ∧
    portValidateFunc 0 = some "0: invalid port - must be between 1 and 65535" ∧
    portValidateFunc (-1) = some "-1: invalid port - must be between 1 and 65535" :=
  ⟨rfl, rfl, rfl, rfl, rfl⟩

/-- C4 counterexample: a keyspace-scoped grant (resource type keyspace) with
no keyspace_name set passes parseGrantData, where the claim requires it to be
rejected. -/
theorem parseGrantData_keyspace_unchecked :
    parseGrantData "select" "migration" "keyspace" "" "" =
      Except.ok ⟨"select", "keyspace", "migration", "", ""⟩ :=
  rfl

/-- C4 amended: parseGrantData rejects, with the descriptive error, exactly
the grants whose resource type upper-cases to TABLE while keyspace_name or
table_name is unset; every other grant (keyspace-scoped types with no
keyspace_name included) passes validation unchanged. -/
theorem parseGrantData_characterization (priv grantee resType ks tbl : String) :
    parseGrantData priv grantee resType ks tbl =
      (if resType ≠ "" ∧ goToUpper resType = "TABLE" ∧ (ks = "" ∨ tbl = "") then
        Except.error "resource_type TABLE requires keyspace_name and table_name to be set"
      else
        Except.ok ⟨priv, resType, grantee, ks, tbl⟩) := by
  unfold parseGrantData
  by_cases h1 : resType ≠ "" ∧ goToUpper resType = "TABLE"
  · by_cases h2 : ks = "" ∨ tbl = ""
    · rw [if_pos h1, if_pos h2, if_pos ⟨h1.1, h1.2, h2⟩]
    · rw [if_pos h1, if_neg h2, if_neg (fun hc => h2 hc.2.2)]
  · rw [if_neg h1, if_neg (fun hc => h1 ⟨hc.1, hc.2.1⟩)]

/-- C1 evidence: at the documented example grant (privilege select on keyspace
test to migration) all three templates render the resource locator with a
stray trailing double quote, GRANT SELECT ON KEYSPACE "test"" TO "migration",
instead of the double-quoted keyspace name alone; with a table name set the
locator is "ks".tbl" rather than "ks".tbl. -/
theorem grantTemplates_stray_quote :
    renderCreateGrant ⟨"select", "keyspace", "migration", "test", ""⟩ =
      "GRANT SELECT ON KEYSPACE \"test\"\" TO \"migration\"" ∧
    renderDeleteGrant ⟨"select", "keyspace", "migration", "test", ""⟩ =
      "REVOKE SELECT ON KEYSPACE \"test\"\" FROM \"migration\"" ∧
    renderReadGrant ⟨"select", "keyspace", "migration", "test", ""⟩ =
      "LIST SELECT ON KEYSPACE \"test\"\" OF \"migration\"" ∧
    renderCreateGrant ⟨"select", "table", "migration", "ks", "tbl"⟩ =
      "GRANT SELECT ON TABLE \"ks\".tbl\" TO \"migration\"" ∧
    renderCreateGrant ⟨"select", "keyspace", "migration", "test", ""⟩ ≠
      "GRANT SELECT ON KEYSPACE \"test\" TO \"migration\"" := by
  refine ⟨rfl, rfl, rfl, rfl, ?_⟩
  decide

theorem tablePrimaryKeyClause_none_iff (l : List String) :
    tablePrimaryKeyClause l = none ↔ l = [] := by
  cases l with
  | nil => simp [tablePrimaryKeyClause]
  | cons p rest =>
    simp only [tablePrimaryKeyClause]
    split <;> simp

theorem buildCreateTableQuery_none_iff (ks n : String) (cols : List (String × String))
    (pk : List String) (c : String) :
    buildCreateTableQuery ks n cols pk c = none ↔ pk = [] := by
  cases hpk : tablePrimaryKeyClause (tablePkParts pk) with
  | none =>
    have h1 : tablePkParts pk = [] := (tablePrimaryKeyClause_none_iff _).mp hpk
    have h2 : pk = [] := by
      cases pk with
      | nil => rfl
      | cons a b => simp [tablePkParts] at h1
    simp [buildCreateTableQuery, hpk, h2, tablePkParts, tablePrimaryKeyClause]
  | some q =>
    have h2 : pk ≠ [] := by
      intro h
      subst h
      simp [tablePkParts, tablePrimaryKeyClause] at hpk
    simp [buildCreateTableQuery, hpk, h2]

/-- C10: resourceTableCreate is the panic value none exactly when the
primary_key list is empty (the Go code slices pkParts[:1], a slice bounds
panic on an empty slice), independently of every driver outcome; the handler
is total precisely under a non-empty primary key. -/
theorem resourceTableCreate_none_iff_empty_primary_key (st : TableState)
    (sess ex rs : Except String Unit) (f : Bool) (ce : Option String) :
    resourceTableCreate st sess ex rs f ce = none ↔ st.primary_key = [] := by
  cases hb : buildCreateTableQuery st.keyspace_name st.name st.columns st.primary_key st.comment with
  | none =>
    have h2 := (buildCreateTableQuery_none_iff _ _ _ _ _).mp hb
    simp [resourceTableCreate, hb, h2, buildCreateTableQuery, tablePkParts, tablePrimaryKeyClause]
  | some q =>
    have h2 : st.primary_key ≠ [] := by
      intro h
      rw [(buildCreateTableQuery_none_iff st.keyspace_name st.name st.columns st.primary_key st.comment).mpr h] at hb
      exact Option.noConfusion hb
    simp only [resourceTableCreate, hb]
    cases sess with
    | error e => simp [h2]
    | ok u =>
      cases ex with
      | error e => simp [h2]
      | ok u2 => simp [h2]

/-- C2 counterexample: reading a grant whose backing permission row is absent
(zero rows listed) returns the fixed not-found error and leaves the recorded
identity untouched, instead of clearing the identity and returning no error. -/
theorem resourceGrantRead_absent_counterexample :
    resourceGrantRead ⟨"select", "migration", "keyspace", "test", "", "migration|KEYSPACE|test||SELECT"⟩
        (Except.ok ()) 0 none =
      (⟨"select", "migration", "keyspace", "test", "", "migration|KEYSPACE|test||SELECT"⟩,
        [Effect.createSession,
          Effect.execStatement "LIST SELECT ON KEYSPACE \"test\"\" OF \"migration\""],
        some "grant not found (it may have been revoked)") :=
  rfl

/-- C2 amended: on absence during Read, the keyspace, table and role handlers
clear the recorded identity and return no error; the grant handler instead
returns the fixed grant-not-found error and leaves its state, identity
included, unchanged. -/
theorem read_absence_behavior :
    (∀ st : KeyspaceState,
      resourceKeyspaceRead st (Except.ok ()) KeyspaceLookup.notExist =
        ({ st with id := "" }, [Effect.createSession], none)) ∧
    (∀ (st : TableState) (ks tbl : String), splitIdOnDot st.id = some (ks, tbl) →
      resourceTableRead st (Except.ok ()) false none =
        ({ st with id := "" },
          [Effect.createSession, Effect.execStatement (tableExistsQuery ks tbl)], none)) ∧
    (∀ (st : RoleState) (sk algo : String) (bm : String → String → Bool),
      resourceRoleRead st sk algo bm (Except.ok ()) RoleLookup.notFound =
        ({ st with id := "" },
          [Effect.createSession, Effect.execStatement (readRoleQuery sk)], none)) ∧
    (∀ (st : GrantState) (g : Grant),
      parseGrantData st.privilege st.grantee st.resource_type st.keyspace_name st.table_name =
        Except.ok g →
      resourceGrantRead st (Except.ok ()) 0 none =
        (st, [Effect.createSession, Effect.execStatement (renderReadGrant g)],
          some "grant not found (it may have been revoked)")) := by
  refine ⟨fun st => rfl, ?_, fun st sk algo bm => rfl, ?_⟩
  · intro st ks tbl h
    simp [resourceTableRead, h]
  · intro st g h
    simp [resourceGrantRead, resourceGrantExists, h]

theorem read_absence_behavior_witness :
    resourceTableRead ⟨"ks.tbl", "ks", "tbl", [("id", "int")], ["id"], ""⟩
        (Except.ok ()) false none =
      (⟨"", "ks", "tbl", [("id", "int")], ["id"], ""⟩,
        [Effect.createSession, Effect.execStatement (tableExistsQuery "ks" "tbl")], none) ∧
    resourceGrantRead ⟨"select", "ops", "all keyspaces", "", "", "gid"⟩ (Except.ok ()) 0 none =
      (⟨"select", "ops", "all keyspaces", "", "", "gid"⟩,
        [Effect.createSession,
          Effect.execStatement (renderReadGrant ⟨"select", "all keyspaces", "ops", "", ""⟩)],
        some "grant not found (it may have been revoked)") :=
  ⟨read_absence_behavior.2.1 ⟨"ks.tbl", "ks", "tbl", [("id", "int")], ["id"], ""⟩ "ks" "tbl" rfl,
    read_absence_behavior.2.2.2 ⟨"select", "ops", "all keyspaces", "", "", "gid"⟩
      ⟨"select", "all keyspaces", "ops", "", ""⟩ rfl⟩

/-- C5: for a role Read that finds the row with a non-empty stored hash, the
read reports no error and sets the password attribute to the configured
plaintext when the stored hash matches it under the configured algorithm
(bcrypt comparison for bcrypt, string equality otherwise) and to the stored
hash when it does not; whenever plaintext and stored hash differ as strings,
the reported password equals the plaintext exactly when the match holds. -/
theorem resourceRoleRead_password_drift (st : RoleState) (sk algo : String)
    (bm : String → String → Bool) (row : RoleRow) (hHash : row.salted_hash ≠ "") :
    (resourceRoleRead st sk algo bm (Except.ok ()) (RoleLookup.found row)).2.2 = none ∧
    (resourceRoleRead st sk algo bm (Except.ok ()) (RoleLookup.found row)).1.password =
      (if claimedHashMatch algo bm row.salted_hash st.password then st.password
       else row.salted_hash) ∧
    (st.password ≠ row.salted_hash →
      ((resourceRoleRead st sk algo bm (Except.ok ()) (RoleLookup.found row)).1.password =
          st.password ↔
        claimedHashMatch algo bm row.salted_hash st.password = true)) := by
  by_cases hb : algo = "bcrypt"
  · by_cases hm : bm row.salted_hash st.password = true
    · refine ⟨?_, ?_, ?_⟩ <;>
        simp [resourceRoleRead, claimedHashMatch, hHash, hb, hm]
    · have hm2 : bm row.salted_hash st.password = false := by
        cases hx : bm row.salted_hash st.password
        · rfl
        · exact absurd hx hm
      refine ⟨?_, ?_, ?_⟩ <;>
        simp [resourceRoleRead, claimedHashMatch, hHash, hb, hm2]
      intro hne
      exact fun hc => absurd hc.symm hne
  · by_cases hs : algo = "sha-512"
    · by_cases he : row.salted_hash = st.password
      · have hpw : st.password ≠ "" := he ▸ hHash
        refine ⟨?_, ?_, ?_⟩ <;>
          simp [resourceRoleRead, claimedHashMatch, hHash, hb, hs, he, hpw]
      · refine ⟨?_, ?_, ?_⟩ <;>
          simp [resourceRoleRead, claimedHashMatch, hHash, hb, hs, he]
    · by_cases he : row.salted_hash = st.password
      · have hpw : st.password ≠ "" := he ▸ hHash
        refine ⟨?_, ?_, ?_⟩ <;>
          simp [resourceRoleRead, claimedHashMatch, hHash, hb, hs, he, hpw]
      · refine ⟨?_, ?_, ?_⟩ <;>
          simp [resourceRoleRead, claimedHashMatch, hHash, hb, hs, he]

theorem resourceRoleRead_password_drift_witness :
    ("storedhash" : String) ≠ "" ∧ ("pw" : String) ≠ "storedhash" ∧
    (resourceRoleRead ⟨"migration", "migration", false, true, "pw"⟩ "system_auth" "bcrypt"
        (fun h p => decide (h = "storedhash" ∧ p = "pw")) (Except.ok ())
        (RoleLookup.found ⟨"migration", true, false, "storedhash"⟩)).1.password = "pw" := by
  refine ⟨by decide, by decide, ?_⟩
  have h := resourceRoleRead_password_drift ⟨"migration", "migration", false, true, "pw"⟩
    "system_auth" "bcrypt" (fun h p => decide (h = "storedhash" ∧ p = "pw"))
    ⟨"migration", true, false, "storedhash"⟩ (by decide)
  rw [h.2.1]
  decide

/-- C6 counterexample: when statement execution fails during table Create,
the handler returns the driver error wrapped in an error-creating-table
message, not the driver error unchanged. -/
theorem resourceTableCreate_wraps_exec_error :
    resourceTableCreate ⟨"", "ks", "users", [("id", "int")], ["id"], ""⟩
        (Except.ok ()) (Except.error "gocql: no hosts available") (Except.ok ()) true none =
      some (⟨"", "ks", "users", [("id", "int")], ["id"], ""⟩,
        [Effect.createSession,
          Effect.execStatement
            "CREATE TABLE \"ks\".\"users\" (\"id\" int, PRIMARY KEY ((\"id\")))"],
        some "error creating table users: gocql: no hosts available") ∧
    ("error creating table users: gocql: no hosts available" : String) ≠
      "gocql: no hosts available" :=
  ⟨rfl, by decide⟩

/-- C6 amended: when statement execution fails, every lifecycle handler
returns the driver error unchanged and leaves its recorded state untouched,
with one exception: table Create returns the driver error wrapped as error
creating table name: err. No handler retries: exactly one execution effect is
recorded. -/
theorem execError_propagation :
    (∀ (st : KeyspaceState) (e q : String) (rs : Except String Unit) (lk : KeyspaceLookup),
      generateCreateOrUpdateKeyspaceQueryString st.name true st.replication_strategy
          st.strategy_options st.durable_writes = Except.ok q →
      resourceKeyspaceCreate st (Except.ok ()) (Except.error e) rs lk =
        (st, [Effect.createSession, Effect.execStatement q], some e)) ∧
    (∀ (st : KeyspaceState) (e q : String) (rs : Except String Unit) (lk : KeyspaceLookup),
      generateCreateOrUpdateKeyspaceQueryString st.name false st.replication_strategy
          st.strategy_options st.durable_writes = Except.ok q →
      resourceKeyspaceUpdate st (Except.ok ()) (Except.error e) rs lk =
        (st, [Effect.createSession, Effect.execStatement q], some e)) ∧
    (∀ (st : KeyspaceState) (e : String),
      resourceKeyspaceDelete st (Except.ok ()) (Except.error e) =
        (st, [Effect.createSession, Effect.execStatement ("DROP KEYSPACE " ++ st.name)],
          some e)) ∧
    (∀ (st : RoleState) (b : Bool) (e : String),
      resourceRoleCreateOrUpdate st b (Except.ok ()) (Except.error e) =
        (st, [Effect.createSession,
          Effect.execStatement (boolToAction b ++ " ROLE \"" ++ st.name ++
            "\" WITH PASSWORD = \x27" ++ st.password ++ "\x27 AND LOGIN = " ++
            goBool st.login ++ " AND SUPERUSER = " ++ goBool st.super_user)], some e)) ∧
    (∀ (st : RoleState) (e : String),
      resourceRoleDelete st (Except.ok ()) (Except.error e) =
        (st, [Effect.createSession, Effect.execStatement ("DROP ROLE \"" ++ st.id ++ "\"")],
          some e)) ∧
    (∀ (st : GrantState) (g : Grant) (e : String) (rs : Except String Unit) (n : Nat)
        (ce : Option String),
      parseGrantData st.privilege st.grantee st.resource_type st.keyspace_name st.table_name =
        Except.ok g →
      resourceGrantCreate st (Except.ok ()) (Except.error e) rs n ce =
        (st, [Effect.createSession, Effect.execStatement (renderCreateGrant g)], some e)) ∧
    (∀ (st : GrantState) (g : Grant) (e : String),
      parseGrantData st.privilege st.grantee st.resource_type st.keyspace_name st.table_name =
        Except.ok g →
      resourceGrantDelete st (Except.ok ()) (Except.error e) =
        (st, [Effect.createSession, Effect.execStatement (renderDeleteGrant g)], some e)) ∧
    (∀ (st : TableState) (q e : String) (rs : Except String Unit) (f : Bool)
        (ce : Option String),
      buildCreateTableQuery st.keyspace_name st.name st.columns st.primary_key st.comment =
        some q →
      resourceTableCreate st (Except.ok ()) (Except.error e) rs f ce =
        some (st, [Effect.createSession, Effect.execStatement q],
          some ("error creating table " ++ st.name ++ ": " ++ e))) ∧
    (∀ (st : TableState) (ks tbl e : String), splitIdOnDot st.id = some (ks, tbl) →
      resourceTableDelete st (Except.ok ()) (Except.error e) =
        (st, [Effect.createSession,
          Effect.execStatement ("DROP TABLE \"" ++ ks ++ "\".\"" ++ tbl ++ "\"")],
          some e)) := by
  refine ⟨?_, ?_, fun st e => rfl, fun st b e => rfl, fun st e => rfl, ?_, ?_, ?_, ?_⟩
  · intro st e q rs lk h
    simp [resourceKeyspaceCreate, h]
  · intro st e q rs lk h
    simp [resourceKeyspaceUpdate, h]
  · intro st g e rs n ce h
    simp [resourceGrantCreate, h]
  · intro st g e h
    simp [resourceGrantDelete, h]
  · intro st q e rs f ce h
    simp [resourceTableCreate, h]
  · intro st ks tbl e h
    simp [resourceTableDelete, h]

theorem execError_propagation_witness :
    resourceKeyspaceCreate ⟨"", "test", "SimpleStrategy", [("replication_factor", "1")], true⟩
        (Except.ok ()) (Except.error "boom") (Except.ok ()) KeyspaceLookup.notExist =
      (⟨"", "test", "SimpleStrategy", [("replication_factor", "1")], true⟩,
        [Effect.createSession,
          Effect.execStatement "CREATE KEYSPACE test WITH REPLICATION = \x7b \x27class\x27 : \x27SimpleStrategy\x27, \x27replication_factor\x27 : \x271\x27 \x7d AND DURABLE_WRITES = true"],
        some "boom") ∧
    resourceGrantDelete ⟨"all", "ops", "role", "", "", "gid"⟩ (Except.ok ())
        (Except.error "down") =
      (⟨"all", "ops", "role", "", "", "gid"⟩,
        [Effect.createSession,
          Effect.execStatement (renderDeleteGrant ⟨"all", "role", "ops", "", ""⟩)],
        some "down") ∧
    resourceTableDelete ⟨"ks.t", "ks", "t", [], ["a"], ""⟩ (Except.ok ())
        (Except.error "err1") =
      (⟨"ks.t", "ks", "t", [], ["a"], ""⟩,
        [Effect.createSession, Effect.execStatement "DROP TABLE \"ks\".\"t\""], some "err1") ∧
    resourceTableCreate ⟨"", "ks", "t", [("a", "int")], ["a"], ""⟩ (Except.ok ())
        (Except.error "err2") (Except.ok ()) true none =
      some (⟨"", "ks", "t", [("a", "int")], ["a"], ""⟩,
        [Effect.createSession,
          Effect.execStatement "CREATE TABLE \"ks\".\"t\" (\"a\" int, PRIMARY KEY ((\"a\")))"],
        some "error creating table t: err2") :=
  ⟨execError_propagation.1 ⟨"", "test", "SimpleStrategy", [("replication_factor", "1")], true⟩
      "boom"
      "CREATE KEYSPACE test WITH REPLICATION = \x7b \x27class\x27 : \x27SimpleStrategy\x27, \x27replication_factor\x27 : \x271\x27 \x7d AND DURABLE_WRITES = true"
      (Except.ok ()) KeyspaceLookup.notExist rfl,
    execError_propagation.2.2.2.2.2.2.1 ⟨"all", "ops", "role", "", "", "gid"⟩
      ⟨"all", "role", "ops", "", ""⟩ "down" rfl,
    execError_propagation.2.2.2.2.2.2.2.2 ⟨"ks.t", "ks", "t", [], ["a"], ""⟩ "ks" "t" "err1" rfl,
    execError_propagation.2.2.2.2.2.2.2.1 ⟨"", "ks", "t", [("a", "int")], ["a"], ""⟩
      "CREATE TABLE \"ks\".\"t\" (\"a\" int, PRIMARY KEY ((\"a\")))" "err2"
      (Except.ok ()) true none rfl⟩

/-- C7: for every keyspace state with an empty strategy-options map, keyspace
Create and Update return the fixed validation error with no driver effect at
all (no session created, no statement executed), independently of every
driver outcome, and the query builder itself rejects an empty options map
before building any CQL string. -/
theorem keyspace_empty_options_rejected :
    (∀ (name : String) (create : Bool) (strat : String) (dw : Bool),
      generateCreateOrUpdateKeyspaceQueryString name create strat [] dw =
        Except.error "must specify strategy options - see https://docs.datastax.com/en/cql/3.3/cql/cql_reference/cqlCreateKeyspace.html") ∧
    (∀ (st : KeyspaceState) (sess ex rs : Except String Unit) (lk : KeyspaceLookup),
      st.strategy_options = [] →
      resourceKeyspaceCreate st sess ex rs lk =
        (st, [], some "must specify strategy options - see https://docs.datastax.com/en/cql/3.3/cql/cql_reference/cqlCreateKeyspace.html") ∧
      resourceKeyspaceUpdate st sess ex rs lk =
        (st, [], some "must specify strategy options - see https://docs.datastax.com/en/cql/3.3/cql/cql_reference/cqlCreateKeyspace.html")) := by
  refine ⟨fun name create strat dw => rfl, ?_⟩
  intro st sess ex rs lk h
  constructor
  · simp [resourceKeyspaceCreate, generateCreateOrUpdateKeyspaceQueryString, h]
  · simp [resourceKeyspaceUpdate, generateCreateOrUpdateKeyspaceQueryString, h]

theorem keyspace_empty_options_rejected_witness :
    resourceKeyspaceCreate ⟨"", "test", "SimpleStrategy", [], true⟩ (Except.ok ())
        (Except.ok ()) (Except.ok ()) KeyspaceLookup.notExist =
      (⟨"", "test", "SimpleStrategy", [], true⟩, [],
        some "must specify strategy options - see https://docs.datastax.com/en/cql/3.3/cql/cql_reference/cqlCreateKeyspace.html") :=
  (keyspace_empty_options_rejected.2 ⟨"", "test", "SimpleStrategy", [], true⟩
    (Except.ok ()) (Except.ok ()) (Except.ok ()) KeyspaceLookup.notExist rfl).1

end Cassandra
